import Mathlib

/-!
Shallow embedding of the `gear` Vulkan convenience layer
(src/mem.rs, src/instance.rs, src/image.rs, src/buffer/mod.rs).

Native driver calls (ash) are modelled by passing their results in as
explicit parameters; a `panic!` or a `Result::unwrap()` on an `Err` is
modelled by the `Panic` error of an `Except Panic` computation; the
sequence of calls a function issues to the logical device is recorded
as a `List DeviceCall` trace.
-/

namespace Gear

/-- A Rust `panic!` / aborting `unwrap`: the process aborts, no error value
is returned to the caller. -/
inductive Panic where
  /-- `panic!("No suitable memory found")` in `DeviceMemory::alloc`. -/
  | noSuitableMemory : Panic
  /-- `Result::unwrap()` called on `Err(code)` for a native call result. -/
  | unwrapErr (code : Int) : Panic
deriving DecidableEq, Repr

/-- `NxError` from the crate: either a wrapped native error code
(`InternalError`) or the absence of a value (`NoValue`). -/
inductive NxError where
  | NoValue : NxError
  | InternalError (code : Int) : NxError
deriving DecidableEq, Repr

/-- `ash::vk::MemoryPropertyFlags::DEVICE_LOCAL` raw bit. -/
def DEVICE_LOCAL : Nat := 1

/-- `ash::vk::MemoryPropertyFlags::HOST_VISIBLE` raw bit. -/
def HOST_VISIBLE : Nat := 2

/-- One entry of the `memory_types` table: its `property_flags` bitmask. -/
structure MemoryType where
  property_flags : Nat
deriving DecidableEq, Repr

/-- `ash::vk::PhysicalDeviceMemoryProperties`: a count and a table of
memory types (a fixed-size array of length `VK_MAX_MEMORY_TYPES` in the
native struct, of which only the first `memory_type_count` are valid). -/
structure PhysicalDeviceMemoryProperties where
  memory_type_count : Nat
  memory_types : List MemoryType
deriving DecidableEq, Repr

/-- `ash::vk::MemoryRequirements`: required size and supported-type bitmask. -/
structure MemoryRequirements where
  size : Nat
  memory_type_bits : Nat
deriving DecidableEq, Repr

/-- The loop condition of `DeviceMemory::alloc` at index `i`:
`(mem_req.memory_type_bits & (1 << i)) != 0` and
`(mem_props.memory_types[i].property_flags & HOST_VISIBLE) != 0`.
Out-of-range indexing is totalised with a zero-flag default here; the
bounds-checked variant is `typeMatchesChecked`. -/
def typeMatches (mem_props : PhysicalDeviceMemoryProperties)
    (mem_req : MemoryRequirements) (i : Nat) : Bool :=
  (mem_req.memory_type_bits &&& (1 <<< i)) != 0 &&
  ((mem_props.memory_types.getD i ⟨0⟩).property_flags &&& HOST_VISIBLE) != 0

/-- The `for` loop of `DeviceMemory::alloc`: state is
`(info.memory_type_index, mem_found)`, initially `(0, false)`; each
matching index overwrites `memory_type_index` and sets `mem_found`,
and the loop never breaks. -/
def allocLoop (mem_props : PhysicalDeviceMemoryProperties)
    (mem_req : MemoryRequirements) : Nat × Bool :=
  (List.range mem_props.memory_type_count).foldl
    (fun st i => if typeMatches mem_props mem_req i then (i, true) else st)
    (0, false)

/-- The memory-type index `DeviceMemory::alloc` puts into its
`MemoryAllocateInfo`, or `none` when `mem_found` stayed false and the
function panics with "No suitable memory found". -/
def allocMemoryTypeIndex (mem_props : PhysicalDeviceMemoryProperties)
    (mem_req : MemoryRequirements) : Option Nat :=
  let st := allocLoop mem_props mem_req
  if st.2 then some st.1 else none

/-- Bounds-checked loop condition: the array access
`mem_props.memory_types[i as usize]` is `none` when `i` is out of
bounds of the `memory_types` array (a Rust index panic).  The access
sits in the second operand of a short-circuit `&&`, so it is only
performed when bit `i` of `memory_type_bits` is set. -/
def typeMatchesChecked (mem_props : PhysicalDeviceMemoryProperties)
    (mem_req : MemoryRequirements) (i : Nat) : Option Bool :=
  if (mem_req.memory_type_bits &&& (1 <<< i)) != 0 then
    match mem_props.memory_types.get? i with
    | none => none
    | some t => some ((t.property_flags &&& HOST_VISIBLE) != 0)
  else
    some false

/-- Bounds-checked variant of `allocLoop`: `none` as soon as some loop
iteration indexes out of bounds. -/
def allocLoopChecked (mem_props : PhysicalDeviceMemoryProperties)
    (mem_req : MemoryRequirements) : Option (Nat × Bool) :=
  (List.range mem_props.memory_type_count).foldlM
    (fun st i => (typeMatchesChecked mem_props mem_req i).map
      (fun b => if b then (i, true) else st))
    (0, false)

end Gear

namespace Gear

/-! ### Helper lemmas about the selection loop -/

/-- Bridge: the Rust test `(a & (1 << i)) != 0` is bit `i` of `a`. -/
theorem and_shiftLeft_ne_zero (a i : Nat) :
    ((a &&& (1 <<< i)) != 0) = a.testBit i := by
  have h1 : (1 : Nat) <<< i = 2 ^ i := by
    simp [Nat.shiftLeft_eq]
  rw [h1, Nat.and_two_pow]
  cases h : a.testBit i <;> simp [h]

/-- Bridge: the Rust test `(flags & HOST_VISIBLE) != 0` is bit 1 of `flags`. -/
theorem and_hostVisible_ne_zero (a : Nat) :
    ((a &&& HOST_VISIBLE) != 0) = a.testBit 1 := by
  have h : HOST_VISIBLE = 1 <<< 1 := rfl
  rw [h, and_shiftLeft_ne_zero]

theorem typeMatches_eq_testBit (mem_props : PhysicalDeviceMemoryProperties)
    (mem_req : MemoryRequirements) (i : Nat) :
    typeMatches mem_props mem_req i =
      (mem_req.memory_type_bits.testBit i &&
       (mem_props.memory_types.getD i ⟨0⟩).property_flags.testBit 1) := by
  unfold typeMatches
  rw [and_shiftLeft_ne_zero, and_hostVisible_ne_zero]

/-- Unfolding of the loop one step at the top end of the range. -/
theorem allocLoop_eq_go (mem_props : PhysicalDeviceMemoryProperties)
    (mem_req : MemoryRequirements) (n : Nat)
    (h : mem_props.memory_type_count = n) :
    allocLoop mem_props mem_req =
      (List.range n).foldl
        (fun st i => if typeMatches mem_props mem_req i then (i, true) else st)
        (0, false) := by
  rw [allocLoop, h]

/-- Generic loop over an explicit index list. -/
def allocScan (mem_props : PhysicalDeviceMemoryProperties)
    (mem_req : MemoryRequirements) (l : List Nat) (st : Nat × Bool) : Nat × Bool :=
  l.foldl (fun st i => if typeMatches mem_props mem_req i then (i, true) else st) st

theorem allocScan_append (mem_props : PhysicalDeviceMemoryProperties)
    (mem_req : MemoryRequirements) (l₁ l₂ : List Nat) (st : Nat × Bool) :
    allocScan mem_props mem_req (l₁ ++ l₂) st =
      allocScan mem_props mem_req l₂ (allocScan mem_props mem_req l₁ st) := by
  simp [allocScan, List.foldl_append]

theorem allocLoop_eq_scan (mem_props : PhysicalDeviceMemoryProperties)
    (mem_req : MemoryRequirements) :
    allocLoop mem_props mem_req =
      allocScan mem_props mem_req (List.range mem_props.memory_type_count) (0, false) := rfl

/-- The loop finds a type iff some index in range matches. -/
theorem allocScan_snd (mem_props : PhysicalDeviceMemoryProperties)
    (mem_req : MemoryRequirements) (l : List Nat) (st : Nat × Bool) :
    (allocScan mem_props mem_req l st).2 =
      (st.2 || l.any (typeMatches mem_props mem_req)) := by
  induction l generalizing st with
  | nil => simp [allocScan]
  | cons a l ih =>
    have hstep : allocScan mem_props mem_req (a :: l) st =
        allocScan mem_props mem_req l
          (if typeMatches mem_props mem_req a then (a, true) else st) := rfl
    rw [hstep, ih]
    by_cases h : typeMatches mem_props mem_req a
    · simp [h]
    · simp [h]

/-- Forward direction of the characterisation: whatever the loop over
`range n` returns with `mem_found = true` is the greatest matching index
below `n`. -/
theorem allocRange_found (mem_props : PhysicalDeviceMemoryProperties)
    (mem_req : MemoryRequirements) (n : Nat) (i : Nat)
    (h : allocScan mem_props mem_req (List.range n) (0, false) = (i, true)) :
    typeMatches mem_props mem_req i = true ∧ i < n ∧
      ∀ j, i < j → j < n → typeMatches mem_props mem_req j = false := by
  induction n generalizing i with
  | zero => simp [allocScan, List.range_zero] at h
  | succ n ih =>
    rw [List.range_succ, allocScan_append] at h
    by_cases hm : typeMatches mem_props mem_req n = true
    · have : allocScan mem_props mem_req [n]
          (allocScan mem_props mem_req (List.range n) (0, false)) = (n, true) := by
        simp [allocScan, hm]
      rw [this] at h
      obtain ⟨h1, h2⟩ := Prod.mk.injEq _ _ _ _ ▸ h
      subst h1
      exact ⟨hm, Nat.lt_succ_self n, fun j hj1 hj2 => absurd (Nat.lt_of_lt_of_le hj1 (Nat.le_of_lt_succ hj2)) (Nat.lt_irrefl n)⟩
    · have hmf : typeMatches mem_props mem_req n = false := by
        simp at hm; exact hm
      have : allocScan mem_props mem_req [n]
          (allocScan mem_props mem_req (List.range n) (0, false)) =
          allocScan mem_props mem_req (List.range n) (0, false) := by
        simp [allocScan, hmf]
      rw [this] at h
      obtain ⟨g1, g2, g3⟩ := ih i h
      refine ⟨g1, Nat.lt_succ_of_lt g2, fun j hj1 hj2 => ?_⟩
      rcases Nat.lt_succ_iff_lt_or_eq.mp hj2 with hlt | heq
      · exact g3 j hj1 hlt
      · subst heq; exact hmf

/-- Backward direction: the greatest matching index below `n` is what the
loop returns. -/
theorem allocRange_complete (mem_props : PhysicalDeviceMemoryProperties)
    (mem_req : MemoryRequirements) (n : Nat) (i : Nat)
    (h1 : typeMatches mem_props mem_req i = true) (h2 : i < n)
    (h3 : ∀ j, i < j → j < n → typeMatches mem_props mem_req j = false) :
    allocScan mem_props mem_req (List.range n) (0, false) = (i, true) := by
  induction n with
  | zero => exact absurd h2 (Nat.not_lt_zero i)
  | succ n ih =>
    rw [List.range_succ, allocScan_append]
    rcases Nat.lt_succ_iff_lt_or_eq.mp h2 with hlt | heq
    · have hnf : typeMatches mem_props mem_req n = false :=
        h3 n hlt (Nat.lt_succ_self n)
      have hrec := ih hlt (fun j hj1 hj2 => h3 j hj1 (Nat.lt_succ_of_lt hj2))
      rw [hrec]
      simp [allocScan, hnf]
    · subst heq
      simp [allocScan, h1]

end Gear

namespace Gear

/-! ### Native-call traces and the remaining wrappers -/

/-- `ash::vk::Extent3d` / the crate's `Extent3d` value object. -/
structure Extent3d where
  width : Nat
  height : Nat
  depth : Nat
deriving DecidableEq, Repr

/-- Modelled from the spec: `Extent3d` lives outside the supplied core
(src/lib.rs is not in the excerpt); per the spec's data model, image
descriptors are "plain value objects (size, usage, dimensions)", so
`Extent3d::new` takes width, height, depth in order. -/
def Extent3d.new (width height depth : Nat) : Extent3d :=
  ⟨width, height, depth⟩

/-- `ash::vk::Format::R8G8B8A8_UNORM` raw value. -/
def FORMAT_R8G8B8A8_UNORM : Nat := 37

/-- `ash::vk::ImageTiling::LINEAR` raw value. -/
def IMAGE_TILING_LINEAR : Nat := 1

/-- `ash::vk::ImageLayout::UNDEFINED` raw value. -/
def IMAGE_LAYOUT_UNDEFINED : Nat := 0

/-- `ash::vk::ImageUsageFlags::COLOR_ATTACHMENT` raw bit. -/
def IMAGE_USAGE_COLOR_ATTACHMENT : Nat := 16

/-- `ash::vk::SharingMode::EXCLUSIVE` raw value. -/
def SHARING_MODE_EXCLUSIVE : Nat := 0

/-- `ash::vk::SampleCountFlags::TYPE_1` raw bit. -/
def SAMPLE_COUNT_TYPE_1 : Nat := 1

/-- `ash::vk::BufferUsageFlags::VERTEX_BUFFER` raw bit. -/
def BUFFER_USAGE_VERTEX_BUFFER : Nat := 128

/-- The `BufferCreateInfo` fields `Buffer::new` sets. -/
structure BufferCreateInfo where
  size : Nat
  usage : Nat
  sharing_mode : Nat
deriving DecidableEq, Repr

/-- `ImageType` of the crate (`e2D` / `e3D`). -/
inductive ImageType where
  | e2D : ImageType
  | e3D : ImageType
deriving DecidableEq, Repr

/-- `impl Into<ash::vk::ImageType> for ImageType`: raw values
`TYPE_2D = 1`, `TYPE_3D = 2`. -/
def ImageType.into : ImageType → Nat
  | .e2D => 1
  | .e3D => 2

/-- The `ImageCreateInfo` fields `Image::create` sets. -/
structure ImageCreateInfo where
  image_type : Nat
  extent : Extent3d
  mip_levels : Nat
  array_layers : Nat
  format : Nat
  tiling : Nat
  initial_layout : Nat
  usage : Nat
  sharing_mode : Nat
  samples : Nat
deriving DecidableEq, Repr

/-- A call issued to the native device, with the arguments the wrapper
passes. Handles (buffers, images, memory blocks) are numbered. -/
inductive DeviceCall where
  | createBuffer (info : BufferCreateInfo) : DeviceCall
  | createImage (info : ImageCreateInfo) : DeviceCall
  | allocateMemory (allocation_size : Nat) (memory_type_index : Nat) : DeviceCall
  | bindBufferMemory (buffer : Nat) (memory : Nat) (offset : Nat) : DeviceCall
  | bindImageMemory (image : Nat) (memory : Nat) (offset : Nat) : DeviceCall
  | freeMemory (memory : Nat) : DeviceCall
  | mapMemory (memory : Nat) (offset : Nat) (size : Nat) : DeviceCall
  | memCopy (count : Nat) : DeviceCall
  | flushMappedMemoryRanges (memory : Nat) (offset : Nat) (size : Nat) : DeviceCall
  | unmapMemory (memory : Nat) : DeviceCall
deriving DecidableEq, Repr

/-- Is this call a memory-bind call? -/
def DeviceCall.isBind : DeviceCall → Bool
  | .bindBufferMemory _ _ _ => true
  | .bindImageMemory _ _ _ => true
  | _ => false

/-- `pub struct DeviceMemory { memory: vk::DeviceMemory }`. -/
structure DeviceMemory where
  memory : Nat
deriving DecidableEq, Repr

/-- `DeviceMemory::alloc`: builds `MemoryAllocateInfo` with
`allocation_size = mem_req.size`, runs the selection loop, panics with
"No suitable memory found" when `mem_found` stayed false, then calls
`device.allocate_memory(&info.build(), None).unwrap()`.
`allocateRes` is the native result of that call (`Err` aborts via
`unwrap`). Returns the memory handle with the issued calls. -/
def DeviceMemory.alloc (mem_props : PhysicalDeviceMemoryProperties)
    (mem_req : MemoryRequirements) (allocateRes : Except Int Nat) :
    Except Panic (Nat × List DeviceCall) :=
  match allocMemoryTypeIndex mem_props mem_req with
  | none => .error .noSuitableMemory
  | some i =>
    match allocateRes with
    | .error e => .error (.unwrapErr e)
    | .ok m => .ok (m, [DeviceCall.allocateMemory mem_req.size i])

/-- `DeviceMemory::alloc_image_memory`: `Self::alloc`, then
`device.bind_image_memory(image, memory, 0).unwrap()`. -/
def DeviceMemory.alloc_image_memory (image : Nat)
    (mem_props : PhysicalDeviceMemoryProperties) (mem_req : MemoryRequirements)
    (allocateRes : Except Int Nat) (bindRes : Except Int Unit) :
    Except Panic (DeviceMemory × List DeviceCall) :=
  match DeviceMemory.alloc mem_props mem_req allocateRes with
  | .error p => .error p
  | .ok (memory, tr) =>
    match bindRes with
    | .error e => .error (.unwrapErr e)
    | .ok _ => .ok (⟨memory⟩, tr ++ [DeviceCall.bindImageMemory image memory 0])

/-- `DeviceMemory::alloc_buffer_memory`: `Self::alloc`, then
`device.bind_buffer_memory(buffer, memory, 0).unwrap()`. -/
def DeviceMemory.alloc_buffer_memory (buffer : Nat)
    (mem_props : PhysicalDeviceMemoryProperties) (mem_req : MemoryRequirements)
    (allocateRes : Except Int Nat) (bindRes : Except Int Unit) :
    Except Panic (DeviceMemory × List DeviceCall) :=
  match DeviceMemory.alloc mem_props mem_req allocateRes with
  | .error p => .error p
  | .ok (memory, tr) =>
    match bindRes with
    | .error e => .error (.unwrapErr e)
    | .ok _ => .ok (⟨memory⟩, tr ++ [DeviceCall.bindBufferMemory buffer memory 0])

/-- `impl Destroy for DeviceMemory`, `fn instance(&self, _: &Instance)`:
empty body, no native call. -/
def DeviceMemory.destroy_instance (_self : DeviceMemory) : List DeviceCall :=
  []

/-- `impl Destroy for DeviceMemory`, `fn device(&self, device: &Device)`:
`device.device.free_memory(self.memory, None)`. -/
def DeviceMemory.destroy_device (self : DeviceMemory) : List DeviceCall :=
  [DeviceCall.freeMemory self.memory]

/-- Abstract device state for frame reasoning: the multiset of live
memory blocks, as a list of handles. -/
structure DeviceState where
  live : List Nat
deriving DecidableEq, Repr

/-- Effect of one device call on the live-memory state: `free_memory`
removes its block; binding, mapping, flushing and copying do not change
which blocks are live. (Creation calls name their fresh handle on the
driver side, outside this abstraction.) -/
def applyCall (st : DeviceState) : DeviceCall → DeviceState
  | .freeMemory m => ⟨st.live.erase m⟩
  | _ => st

/-- Run a trace of device calls on a state. -/
def applyTrace (st : DeviceState) (tr : List DeviceCall) : DeviceState :=
  tr.foldl applyCall st

/-- `DeviceConnecter(pub(crate) PhysicalDevice)`: a copyable wrapper of
a physical-device handle. -/
structure DeviceConnecter where
  dev : Nat
deriving DecidableEq, Repr

/-- `Instance::enumerate_connecters`: `native` is the result of the
native `enumerate_physical_devices` call. A native error is wrapped as
`InternalError`; a successful empty list becomes `NoValue`; otherwise
each physical device is wrapped as a `DeviceConnecter`, in order. -/
def enumerate_connecters (native : Except Int (List Nat)) :
    Except NxError (List DeviceConnecter) :=
  match native with
  | .error e => .error (.InternalError e)
  | .ok devices =>
    let connecters := devices.map DeviceConnecter.mk
    if !connecters.isEmpty then .ok connecters else .error .NoValue

/-- The two native handles `InstanceBuilder::build` stores on success. -/
structure InstanceHandles where
  inst : Nat
  debug_call_back : Nat
deriving DecidableEq, Repr

/-- `InstanceBuilder::build`: `createInstanceRes` is the result of
`entry.create_instance`, `createMessengerRes` the result of
`create_debug_utils_messenger`; each `Err(e)` is returned to the caller
as `Err(NxError::InternalError(e))` — no panic. -/
def InstanceBuilder.build (createInstanceRes : Except Int Nat)
    (createMessengerRes : Except Int Nat) :
    Except NxError InstanceHandles :=
  match createInstanceRes with
  | .error e => .error (.InternalError e)
  | .ok inst =>
    match createMessengerRes with
    | .error e => .error (.InternalError e)
    | .ok cb => .ok ⟨inst, cb⟩

end Gear

namespace Gear

/-! ### Buffer and Image -/

/-- `BufferUsage` of the crate (only `Vertex`). -/
inductive BufferUsage where
  | Vertex : BufferUsage
deriving DecidableEq, Repr

/-- `impl Into<ash::vk::BufferUsageFlags> for BufferUsage`. -/
def BufferUsage.into : BufferUsage → Nat
  | .Vertex => BUFFER_USAGE_VERTEX_BUFFER

/-- `BufferDescriptor { size: usize, usage: BufferUsage }`. -/
structure BufferDescriptor where
  size : Nat
  usage : BufferUsage
deriving DecidableEq, Repr

/-- `BufferDescriptor::empty()`. -/
def BufferDescriptor.empty : BufferDescriptor :=
  ⟨0, .Vertex⟩

/-- `pub struct Buffer { buffer, memory, size }`. -/
structure Buffer where
  buffer : Nat
  memory : DeviceMemory
  size : Nat
deriving DecidableEq, Repr

/-- `Buffer::new`: builds a `BufferCreateInfo` from the descriptor with
exclusive sharing, `create_buffer(..).unwrap()` (`Err` aborts), then
`DeviceMemory::alloc_buffer_memory`; stores `size: descriptor.size`.
The function returns `Self`, not `NxResult`: there is no error channel.
`createBufferRes` is the native `create_buffer` result; `mem_props` and
`mem_req` are what `get_memory_properties` and
`get_buffer_memory_requirements` returned; `allocateRes`/`bindRes` are
the native results inside `alloc_buffer_memory`. -/
def Buffer.new (descriptor : BufferDescriptor)
    (createBufferRes : Except Int Nat)
    (mem_props : PhysicalDeviceMemoryProperties) (mem_req : MemoryRequirements)
    (allocateRes : Except Int Nat) (bindRes : Except Int Unit) :
    Except Panic (Buffer × List DeviceCall) :=
  let create_info : BufferCreateInfo :=
    ⟨descriptor.size, descriptor.usage.into, SHARING_MODE_EXCLUSIVE⟩
  match createBufferRes with
  | .error e => .error (.unwrapErr e)
  | .ok buffer =>
    match DeviceMemory.alloc_buffer_memory buffer mem_props mem_req allocateRes bindRes with
    | .error p => .error p
    | .ok (memory, tr) =>
      .ok (⟨buffer, memory, descriptor.size⟩, DeviceCall.createBuffer create_info :: tr)

/-- `Buffer::write`: `map_memory(self.memory.memory, 0, self.size as u64,
empty()).unwrap()`, then `mem_copy(mapped, data, self.size)`, then
`flush_mapped_memory_ranges` on the range `{memory, offset: 0, size:
self.size}` (unwrapped). Returns the calls issued on success. -/
def Buffer.write (self : Buffer) (mapRes : Except Int Nat)
    (flushRes : Except Int Unit) : Except Panic (List DeviceCall) :=
  match mapRes with
  | .error e => .error (.unwrapErr e)
  | .ok _ =>
    match flushRes with
    | .error e => .error (.unwrapErr e)
    | .ok _ =>
      .ok [DeviceCall.mapMemory self.memory.memory 0 self.size,
           DeviceCall.memCopy self.size,
           DeviceCall.flushMappedMemoryRanges self.memory.memory 0 self.size]

/-- `Buffer::lock`: `device.device.unmap_memory(self.memory.memory)`. -/
def Buffer.lock (self : Buffer) : List DeviceCall :=
  [DeviceCall.unmapMemory self.memory.memory]

/-- `ImageDescriptor { image_type, extent, mip_levels, array_layers }`. -/
structure ImageDescriptor where
  image_type : ImageType
  extent : Extent3d
  mip_levels : Nat
  array_layers : Nat
deriving DecidableEq, Repr

/-- `ImageDescriptor::new()`. -/
def ImageDescriptor.new : ImageDescriptor :=
  { image_type := ImageType.e2D
    extent := Extent3d.new 100 100 1
    mip_levels := 1
    array_layers := 1 }

/-- `pub struct Image { image, memory, .. }` (the device borrow carries
no data relevant here). -/
structure Image where
  image : Nat
  memory : DeviceMemory
deriving DecidableEq, Repr

/-- `Image::create`: builds the `ImageCreateInfo` from the descriptor's
`image_type`, `extent`, `mip_levels`, `array_layers` plus the hard-coded
format/tiling/layout/usage/sharing/samples, `create_image(..).unwrap()`
(`Err` aborts), then `DeviceMemory::alloc_image_memory`. Returns `Self`,
not `NxResult`: there is no error channel. -/
def Image.create (descriptor : ImageDescriptor)
    (createImageRes : Except Int Nat)
    (mem_props : PhysicalDeviceMemoryProperties) (mem_req : MemoryRequirements)
    (allocateRes : Except Int Nat) (bindRes : Except Int Unit) :
    Except Panic (Image × List DeviceCall) :=
  let create_info : ImageCreateInfo :=
    { image_type := descriptor.image_type.into
      extent := descriptor.extent
      mip_levels := descriptor.mip_levels
      array_layers := descriptor.array_layers
      format := FORMAT_R8G8B8A8_UNORM
      tiling := IMAGE_TILING_LINEAR
      initial_layout := IMAGE_LAYOUT_UNDEFINED
      usage := IMAGE_USAGE_COLOR_ATTACHMENT
      sharing_mode := SHARING_MODE_EXCLUSIVE
      samples := SAMPLE_COUNT_TYPE_1 }
  match createImageRes with
  | .error e => .error (.unwrapErr e)
  | .ok image =>
    match DeviceMemory.alloc_image_memory image mem_props mem_req allocateRes bindRes with
    | .error p => .error p
    | .ok (memory, tr) =>
      .ok (⟨image, memory⟩, DeviceCall.createImage create_info :: tr)

/-- The claim C1 reads the selection as a lowest-index search; this is
that reading, written from the spec's words for comparison with
`allocMemoryTypeIndex` (which is the code's loop). -/
def lowestMatchingIndex (mem_props : PhysicalDeviceMemoryProperties)
    (mem_req : MemoryRequirements) : Option Nat :=
  (List.range mem_props.memory_type_count).find? (typeMatches mem_props mem_req)

end Gear

namespace Gear

/-! ### Shared lemmas about `DeviceMemory::alloc` -/

theorem allocMemoryTypeIndex_eq (mem_props : PhysicalDeviceMemoryProperties)
    (mem_req : MemoryRequirements) :
    allocMemoryTypeIndex mem_props mem_req =
      (if (allocLoop mem_props mem_req).2 then some (allocLoop mem_props mem_req).1
       else none) := rfl

/-- No index is selected exactly when no index below the count has both
its bit in `memory_type_bits` and the HOST_VISIBLE bit. -/
theorem allocMemoryTypeIndex_eq_none_iff (mem_props : PhysicalDeviceMemoryProperties)
    (mem_req : MemoryRequirements) :
    allocMemoryTypeIndex mem_props mem_req = none ↔
      ¬ ∃ i, i < mem_props.memory_type_count ∧
        mem_req.memory_type_bits.testBit i = true ∧
        (mem_props.memory_types.getD i ⟨0⟩).property_flags.testBit 1 = true := by
  have hsnd : (allocLoop mem_props mem_req).2 =
      (List.range mem_props.memory_type_count).any (typeMatches mem_props mem_req) := by
    rw [allocLoop_eq_scan, allocScan_snd]
    simp
  rw [allocMemoryTypeIndex_eq]
  constructor
  · intro h hex
    obtain ⟨i, hi, h1, h2⟩ := hex
    have hany : (List.range mem_props.memory_type_count).any
        (typeMatches mem_props mem_req) = true := by
      rw [List.any_eq_true]
      exact ⟨i, List.mem_range.mpr hi, by rw [typeMatches_eq_testBit, h1, h2]; rfl⟩
    rw [← hsnd] at hany
    rw [hany] at h
    simp at h
  · intro h
    cases hb : (allocLoop mem_props mem_req).2 with
    | false => simp [hb]
    | true =>
      exfalso
      rw [hsnd, List.any_eq_true] at hb
      obtain ⟨i, him, hm⟩ := hb
      rw [typeMatches_eq_testBit] at hm
      obtain ⟨h1, h2⟩ : mem_req.memory_type_bits.testBit i = true ∧
          (mem_props.memory_types.getD i ⟨0⟩).property_flags.testBit 1 = true := by
        simpa using hm
      exact h ⟨i, List.mem_range.mp him, h1, h2⟩

/-- `DeviceMemory::alloc` hits the "No suitable memory found" panic iff
the selection found nothing, whatever the native allocation returns. -/
theorem alloc_noSuitable_iff (mem_props : PhysicalDeviceMemoryProperties)
    (mem_req : MemoryRequirements) (allocateRes : Except Int Nat) :
    DeviceMemory.alloc mem_props mem_req allocateRes = .error .noSuitableMemory ↔
      allocMemoryTypeIndex mem_props mem_req = none := by
  unfold DeviceMemory.alloc
  cases h : allocMemoryTypeIndex mem_props mem_req with
  | none => simp
  | some i =>
    cases allocateRes with
    | error e => simp
    | ok m => simp

/-- The buffer variant panics with "No suitable memory found" iff
`alloc` does. -/
theorem alloc_buffer_noSuitable_iff (buffer : Nat)
    (mem_props : PhysicalDeviceMemoryProperties) (mem_req : MemoryRequirements)
    (allocateRes : Except Int Nat) (bindRes : Except Int Unit) :
    DeviceMemory.alloc_buffer_memory buffer mem_props mem_req allocateRes bindRes =
        .error .noSuitableMemory ↔
      DeviceMemory.alloc mem_props mem_req allocateRes = .error .noSuitableMemory := by
  unfold DeviceMemory.alloc_buffer_memory
  cases h : DeviceMemory.alloc mem_props mem_req allocateRes with
  | error p => simp
  | ok mtr =>
    cases mtr with
    | mk m tr =>
      cases bindRes with
      | error e => simp
      | ok u => simp

/-- The image variant panics with "No suitable memory found" iff `alloc`
does. -/
theorem alloc_image_noSuitable_iff (image : Nat)
    (mem_props : PhysicalDeviceMemoryProperties) (mem_req : MemoryRequirements)
    (allocateRes : Except Int Nat) (bindRes : Except Int Unit) :
    DeviceMemory.alloc_image_memory image mem_props mem_req allocateRes bindRes =
        .error .noSuitableMemory ↔
      DeviceMemory.alloc mem_props mem_req allocateRes = .error .noSuitableMemory := by
  unfold DeviceMemory.alloc_image_memory
  cases h : DeviceMemory.alloc mem_props mem_req allocateRes with
  | error p => simp
  | ok mtr =>
    cases mtr with
    | mk m tr =>
      cases bindRes with
      | error e => simp
      | ok u => simp

end Gear

namespace Gear

/-! ### Claims C1 and C2 -/

/-- Claim C1 (counterexample): with two memory types, both host-visible
and both supported by the resource's bitmask, `DeviceMemory::alloc`
sets `memory_type_index` to 1 — the loop never breaks and keeps
overwriting the index — while the lowest matching index is 0. The claim
that the LOWEST matching index is selected is therefore false. -/
theorem C1_counterexample :
    allocMemoryTypeIndex ⟨2, [⟨HOST_VISIBLE⟩, ⟨HOST_VISIBLE⟩]⟩ ⟨64, 3⟩ = some 1 ∧
    lowestMatchingIndex ⟨2, [⟨HOST_VISIBLE⟩, ⟨HOST_VISIBLE⟩]⟩ ⟨64, 3⟩ = some 0 ∧
    ¬ allocMemoryTypeIndex ⟨2, [⟨HOST_VISIBLE⟩, ⟨HOST_VISIBLE⟩]⟩ ⟨64, 3⟩ =
        lowestMatchingIndex ⟨2, [⟨HOST_VISIBLE⟩, ⟨HOST_VISIBLE⟩]⟩ ⟨64, 3⟩ := by
  refine ⟨by decide, by decide, by decide⟩

/-- Claim C1 (amended): `DeviceMemory::alloc` uses as the allocation's
`memory_type_index` the HIGHEST-indexed memory type `i` with
`i < memory_type_count`, bit `i` set in `mem_req.memory_type_bits`, and
HOST_VISIBLE set in the type's property flags — the loop has no break,
so each later match overwrites the index. -/
theorem C1_alloc_selects_highest (mem_props : PhysicalDeviceMemoryProperties)
    (mem_req : MemoryRequirements) (i : Nat) :
    allocMemoryTypeIndex mem_props mem_req = some i ↔
      (i < mem_props.memory_type_count ∧
       mem_req.memory_type_bits.testBit i = true ∧
       (mem_props.memory_types.getD i ⟨0⟩).property_flags.testBit 1 = true ∧
       ∀ j, j < mem_props.memory_type_count →
         mem_req.memory_type_bits.testBit j = true →
         (mem_props.memory_types.getD j ⟨0⟩).property_flags.testBit 1 = true →
         j ≤ i) := by
  rw [allocMemoryTypeIndex_eq]
  constructor
  · intro h
    cases hsc : allocLoop mem_props mem_req with
    | mk a b =>
      rw [hsc] at h
      cases b with
      | false => simp at h
      | true =>
        have ha : a = i := by simpa using h
        subst ha
        rw [allocLoop_eq_scan] at hsc
        obtain ⟨hm, hlt, hmax⟩ := allocRange_found mem_props mem_req
          mem_props.memory_type_count a hsc
        obtain ⟨h1, h2⟩ : mem_req.memory_type_bits.testBit a = true ∧
            (mem_props.memory_types.getD a ⟨0⟩).property_flags.testBit 1 = true := by
          rw [typeMatches_eq_testBit] at hm
          simpa using hm
        refine ⟨hlt, h1, h2, fun j hj hbj1 hbj2 => ?_⟩
        by_contra hji
        have haj : a < j := by omega
        have hf := hmax j haj hj
        rw [typeMatches_eq_testBit, hbj1, hbj2] at hf
        simp at hf
  · rintro ⟨hlt, hb1, hb2, hmax⟩
    have hm : typeMatches mem_props mem_req i = true := by
      rw [typeMatches_eq_testBit, hb1, hb2]; rfl
    have hmax2 : ∀ j, i < j → j < mem_props.memory_type_count →
        typeMatches mem_props mem_req j = false := by
      intro j hij hjn
      by_contra hc
      have hcb : typeMatches mem_props mem_req j = true := by
        simpa using hc
      rw [typeMatches_eq_testBit] at hcb
      obtain ⟨hc1, hc2⟩ : mem_req.memory_type_bits.testBit j = true ∧
          (mem_props.memory_types.getD j ⟨0⟩).property_flags.testBit 1 = true := by
        simpa using hcb
      have := hmax j hjn hc1 hc2
      omega
    have hsc := allocRange_complete mem_props mem_req
      mem_props.memory_type_count i hm hlt hmax2
    rw [allocLoop_eq_scan, hsc]
    rfl

/-- Witness for the amended C1: with types 0 and 2 host-visible and bits
{0,2} supported, the chosen index is 2 — the highest matching one. -/
theorem C1_witness :
    allocMemoryTypeIndex ⟨3, [⟨HOST_VISIBLE⟩, ⟨DEVICE_LOCAL⟩, ⟨HOST_VISIBLE⟩]⟩ ⟨16, 5⟩ =
      some 2 :=
  (C1_alloc_selects_highest ⟨3, [⟨HOST_VISIBLE⟩, ⟨DEVICE_LOCAL⟩, ⟨HOST_VISIBLE⟩]⟩
    ⟨16, 5⟩ 2).mpr
    ⟨by decide, by decide, by decide, by decide⟩

/-- Claim C2: `DeviceMemory::alloc` — and hence `alloc_buffer_memory`
and `alloc_image_memory` — aborts with the "No suitable memory found"
panic if and only if no index `i < memory_type_count` has both bit `i`
set in `mem_req.memory_type_bits` and HOST_VISIBLE set in the type's
property flags; when such an index exists that panic does not occur. -/
theorem C2_panic_iff_no_suitable_type (mem_props : PhysicalDeviceMemoryProperties)
    (mem_req : MemoryRequirements) (allocateRes : Except Int Nat)
    (bindRes : Except Int Unit) (buffer image : Nat) :
    (DeviceMemory.alloc mem_props mem_req allocateRes = .error .noSuitableMemory ↔
      ¬ ∃ i, i < mem_props.memory_type_count ∧
        mem_req.memory_type_bits.testBit i = true ∧
        (mem_props.memory_types.getD i ⟨0⟩).property_flags.testBit 1 = true) ∧
    (DeviceMemory.alloc_buffer_memory buffer mem_props mem_req allocateRes bindRes =
        .error .noSuitableMemory ↔
      ¬ ∃ i, i < mem_props.memory_type_count ∧
        mem_req.memory_type_bits.testBit i = true ∧
        (mem_props.memory_types.getD i ⟨0⟩).property_flags.testBit 1 = true) ∧
    (DeviceMemory.alloc_image_memory image mem_props mem_req allocateRes bindRes =
        .error .noSuitableMemory ↔
      ¬ ∃ i, i < mem_props.memory_type_count ∧
        mem_req.memory_type_bits.testBit i = true ∧
        (mem_props.memory_types.getD i ⟨0⟩).property_flags.testBit 1 = true) := by
  refine ⟨?_, ?_, ?_⟩
  · rw [alloc_noSuitable_iff]
    exact allocMemoryTypeIndex_eq_none_iff mem_props mem_req
  · rw [alloc_buffer_noSuitable_iff, alloc_noSuitable_iff]
    exact allocMemoryTypeIndex_eq_none_iff mem_props mem_req
  · rw [alloc_image_noSuitable_iff, alloc_noSuitable_iff]
    exact allocMemoryTypeIndex_eq_none_iff mem_props mem_req

/-- Witness for C2 at a concrete input: with a single device-local-only
type the panic fires, for `alloc` itself and both wrappers. -/
theorem C2_witness :
    DeviceMemory.alloc ⟨1, [⟨DEVICE_LOCAL⟩]⟩ ⟨8, 1⟩ (.ok 4) = .error .noSuitableMemory ∧
    DeviceMemory.alloc_buffer_memory 7 ⟨1, [⟨DEVICE_LOCAL⟩]⟩ ⟨8, 1⟩ (.ok 4) (.ok ()) =
      .error .noSuitableMemory ∧
    DeviceMemory.alloc_image_memory 9 ⟨1, [⟨DEVICE_LOCAL⟩]⟩ ⟨8, 1⟩ (.ok 4) (.ok ()) =
      .error .noSuitableMemory := by
  obtain ⟨w1, w2, w3⟩ := C2_panic_iff_no_suitable_type ⟨1, [⟨DEVICE_LOCAL⟩]⟩ ⟨8, 1⟩
    (.ok 4) (.ok ()) 7 9
  exact ⟨w1.mpr (by decide), w2.mpr (by decide), w3.mpr (by decide)⟩

end Gear

namespace Gear

/-! ### Claims C3, C4, C5 -/

/-- Claim C3: `Instance::enumerate_connecters` returns `NoValue` exactly
when the native enumeration succeeds with an empty list; a non-empty
list yields one `DeviceConnecter` per physical device in order; a
native failure is wrapped as `InternalError`. -/
theorem C3_enumerate_connecters_cases (native : Except Int (List Nat)) :
    (enumerate_connecters native = .error .NoValue ↔ native = .ok []) ∧
    (∀ devices, devices ≠ [] → native = .ok devices →
      enumerate_connecters native = .ok (devices.map DeviceConnecter.mk)) ∧
    (∀ e, native = .error e →
      enumerate_connecters native = .error (.InternalError e)) := by
  cases native with
  | error e =>
    refine ⟨?_, ?_, ?_⟩
    · simp [enumerate_connecters]
    · intro devices hne hdev
      exact absurd hdev (by simp)
    · intro e2 he
      have : e2 = e := by simpa using he.symm
      subst this
      rfl
  | ok devices =>
    cases devices with
    | nil =>
      refine ⟨?_, ?_, ?_⟩
      · simp [enumerate_connecters]
      · intro ds hne hdev
        have : ds = [] := by simpa using hdev.symm
        exact absurd this hne
      · intro e he
        exact absurd he (by simp)
    | cons d ds =>
      refine ⟨?_, ?_, ?_⟩
      · simp [enumerate_connecters]
      · intro l hne hdev
        have hl : l = d :: ds := by simpa using hdev.symm
        subst hl
        simp [enumerate_connecters]
      · intro e he
        exact absurd he (by simp)

/-- Witness for C3: two devices give two connecters in order; an empty
list gives `NoValue`; a native error code is wrapped. -/
theorem C3_witness :
    enumerate_connecters (.ok [5, 7]) = .ok (List.map DeviceConnecter.mk [5, 7]) ∧
    enumerate_connecters (.ok []) = .error .NoValue ∧
    enumerate_connecters (.error 3) = .error (.InternalError 3) :=
  ⟨(C3_enumerate_connecters_cases (.ok [5, 7])).2.1 [5, 7] (by decide) rfl,
   (C3_enumerate_connecters_cases (.ok [])).1.mpr rfl,
   (C3_enumerate_connecters_cases (.error 3)).2.2 3 rfl⟩

/-- Claim C4 (counterexample): a failing native `create_buffer` inside
`Buffer::new` — and a failing `create_image` inside `Image::create` —
is NOT surfaced as `NxError::InternalError`: both functions return
`Self` with no error channel, and the `unwrap` aborts the process
(modelled as the `Panic.unwrapErr` outcome). -/
theorem C4_counterexample :
    Buffer.new BufferDescriptor.empty (.error 11) ⟨1, [⟨HOST_VISIBLE⟩]⟩ ⟨4, 1⟩
        (.ok 9) (.ok ()) = .error (.unwrapErr 11) ∧
    Image.create ImageDescriptor.new (.error 11) ⟨1, [⟨HOST_VISIBLE⟩]⟩ ⟨4, 1⟩
        (.ok 9) (.ok ()) = .error (.unwrapErr 11) := by
  exact ⟨rfl, rfl⟩

/-- Claim C4 (amended): `InstanceBuilder::build` surfaces a non-success
native result as `Err(NxError::InternalError(_))`; `Buffer::new` and
`Image::create` instead abort (panic through `unwrap`) whenever
`create_buffer`/`create_image`/`allocate_memory`/bind fail — they never
return an error value. -/
theorem C4_amended_error_surfacing (e : Int) (inst : Nat)
    (cm : Except Int Nat)
    (bdescriptor : BufferDescriptor) (idescriptor : ImageDescriptor)
    (mem_props : PhysicalDeviceMemoryProperties) (mem_req : MemoryRequirements)
    (createRes allocateRes : Except Int Nat) (bindRes : Except Int Unit) :
    (InstanceBuilder.build (.error e) cm = .error (.InternalError e)) ∧
    (InstanceBuilder.build (.ok inst) (.error e) = .error (.InternalError e)) ∧
    (Buffer.new bdescriptor (.error e) mem_props mem_req allocateRes bindRes =
      .error (.unwrapErr e)) ∧
    (Image.create idescriptor (.error e) mem_props mem_req allocateRes bindRes =
      .error (.unwrapErr e)) ∧
    ((∃ e2, createRes = .error e2) ∨ (∃ e2, allocateRes = .error e2) ∨
        (∃ e2, bindRes = .error e2) →
      (∃ p, Buffer.new bdescriptor createRes mem_props mem_req allocateRes bindRes =
          .error p) ∧
      (∃ p, Image.create idescriptor createRes mem_props mem_req allocateRes bindRes =
          .error p)) := by
  refine ⟨rfl, rfl, rfl, rfl, ?_⟩
  intro hfail
  cases createRes with
  | error e2 => exact ⟨⟨.unwrapErr e2, rfl⟩, ⟨.unwrapErr e2, rfl⟩⟩
  | ok hb =>
    cases hidx : allocMemoryTypeIndex mem_props mem_req with
    | none =>
      refine ⟨⟨.noSuitableMemory, ?_⟩, ⟨.noSuitableMemory, ?_⟩⟩ <;>
        simp [Buffer.new, Image.create, DeviceMemory.alloc_buffer_memory,
          DeviceMemory.alloc_image_memory, DeviceMemory.alloc, hidx]
    | some i =>
      cases allocateRes with
      | error e2 =>
        refine ⟨⟨.unwrapErr e2, ?_⟩, ⟨.unwrapErr e2, ?_⟩⟩ <;>
          simp [Buffer.new, Image.create, DeviceMemory.alloc_buffer_memory,
            DeviceMemory.alloc_image_memory, DeviceMemory.alloc, hidx]
      | ok m =>
        cases bindRes with
        | error e2 =>
          refine ⟨⟨.unwrapErr e2, ?_⟩, ⟨.unwrapErr e2, ?_⟩⟩ <;>
            simp [Buffer.new, Image.create, DeviceMemory.alloc_buffer_memory,
              DeviceMemory.alloc_image_memory, DeviceMemory.alloc, hidx]
        | ok u =>
          exfalso
          rcases hfail with ⟨e2, hc⟩ | ⟨e2, hc⟩ | ⟨e2, hc⟩ <;> simp at hc

/-- Witness for the amended C4 at concrete inputs. -/
theorem C4_witness :
    InstanceBuilder.build (.error 5) (.ok 1) = .error (.InternalError 5) ∧
    (∃ p, Buffer.new BufferDescriptor.empty (.ok 2) ⟨1, [⟨HOST_VISIBLE⟩]⟩ ⟨4, 1⟩
        (.error 6) (.ok ()) = .error p) := by
  obtain ⟨w1, _, _, _, w5⟩ := C4_amended_error_surfacing 5 1 (.ok 1)
    BufferDescriptor.empty ImageDescriptor.new ⟨1, [⟨HOST_VISIBLE⟩]⟩ ⟨4, 1⟩
    (.ok 2) (.error 6) (.ok ())
  exact ⟨w1, (w5 (Or.inr (Or.inl ⟨6, rfl⟩))).1⟩

/-- Claim C5: on success, `alloc_buffer_memory` issues exactly one bind
call, for the given buffer and the freshly allocated block, at offset
0 — and `alloc_image_memory` likewise for the given image. -/
theorem C5_bind_once_offset_zero (buffer image : Nat)
    (mem_props : PhysicalDeviceMemoryProperties) (mem_req : MemoryRequirements)
    (allocateRes : Except Int Nat) (bindRes : Except Int Unit)
    (dm : DeviceMemory) (tr : List DeviceCall) :
    (DeviceMemory.alloc_buffer_memory buffer mem_props mem_req allocateRes bindRes =
        .ok (dm, tr) →
      tr.filter DeviceCall.isBind = [DeviceCall.bindBufferMemory buffer dm.memory 0]) ∧
    (DeviceMemory.alloc_image_memory image mem_props mem_req allocateRes bindRes =
        .ok (dm, tr) →
      tr.filter DeviceCall.isBind = [DeviceCall.bindImageMemory image dm.memory 0]) := by
  constructor
  · intro h
    unfold DeviceMemory.alloc_buffer_memory DeviceMemory.alloc at h
    cases hidx : allocMemoryTypeIndex mem_props mem_req with
    | none => rw [hidx] at h; simp at h
    | some i =>
      rw [hidx] at h
      cases allocateRes with
      | error e => simp at h
      | ok m =>
        cases bindRes with
        | error e => simp at h
        | ok u =>
          obtain ⟨hdm, htr⟩ : (⟨m⟩ : DeviceMemory) = dm ∧
              [DeviceCall.allocateMemory mem_req.size i] ++
                [DeviceCall.bindBufferMemory buffer m 0] = tr := by
            simpa using h
          subst hdm
          rw [← htr]
          rfl
  · intro h
    unfold DeviceMemory.alloc_image_memory DeviceMemory.alloc at h
    cases hidx : allocMemoryTypeIndex mem_props mem_req with
    | none => rw [hidx] at h; simp at h
    | some i =>
      rw [hidx] at h
      cases allocateRes with
      | error e => simp at h
      | ok m =>
        cases bindRes with
        | error e => simp at h
        | ok u =>
          obtain ⟨hdm, htr⟩ : (⟨m⟩ : DeviceMemory) = dm ∧
              [DeviceCall.allocateMemory mem_req.size i] ++
                [DeviceCall.bindImageMemory image m 0] = tr := by
            simpa using h
          subst hdm
          rw [← htr]
          rfl

/-- Witness for C5 at a concrete successful allocation. -/
theorem C5_witness :
    DeviceMemory.alloc_buffer_memory 7 ⟨1, [⟨HOST_VISIBLE⟩]⟩ ⟨8, 1⟩ (.ok 4) (.ok ()) =
        .ok (⟨4⟩, [DeviceCall.allocateMemory 8 0, DeviceCall.bindBufferMemory 7 4 0]) ∧
    [DeviceCall.allocateMemory 8 0, DeviceCall.bindBufferMemory 7 4 0].filter
        DeviceCall.isBind = [DeviceCall.bindBufferMemory 7 4 0] :=
  ⟨rfl, (C5_bind_once_offset_zero 7 9 ⟨1, [⟨HOST_VISIBLE⟩]⟩ ⟨8, 1⟩ (.ok 4) (.ok ())
      ⟨4⟩ [DeviceCall.allocateMemory 8 0, DeviceCall.bindBufferMemory 7 4 0]).1 rfl⟩

end Gear

namespace Gear

/-! ### Claims C6, C7, C8 -/

/-- The loop result only depends on the match predicate on the visited
indices. -/
theorem allocScan_congr (mp₁ mp₂ : PhysicalDeviceMemoryProperties)
    (mem_req : MemoryRequirements) (l : List Nat) (st : Nat × Bool)
    (h : ∀ i ∈ l, typeMatches mp₁ mem_req i = typeMatches mp₂ mem_req i) :
    allocScan mp₁ mem_req l st = allocScan mp₂ mem_req l st := by
  induction l generalizing st with
  | nil => rfl
  | cons a l ih =>
    have ha := h a (List.mem_cons_self a l)
    have hstep1 : allocScan mp₁ mem_req (a :: l) st =
        allocScan mp₁ mem_req l
          (if typeMatches mp₁ mem_req a then (a, true) else st) := rfl
    have hstep2 : allocScan mp₂ mem_req (a :: l) st =
        allocScan mp₂ mem_req l
          (if typeMatches mp₂ mem_req a then (a, true) else st) := rfl
    rw [hstep1, hstep2, ha, ih _ (fun i hi => h i (List.mem_cons_of_mem a hi))]

/-- Claim C6: the memory-type selection is independent of every property
flag other than HOST_VISIBLE: two property tables with the same count
that agree on the HOST_VISIBLE bit at every index give the same chosen
index and the same panic behaviour, for every `mem_req` and native
allocation result. -/
theorem C6_selection_ignores_other_flags (mp₁ mp₂ : PhysicalDeviceMemoryProperties)
    (mem_req : MemoryRequirements)
    (hcount : mp₁.memory_type_count = mp₂.memory_type_count)
    (hhv : ∀ i, i < mp₁.memory_type_count →
      (mp₁.memory_types.getD i ⟨0⟩).property_flags.testBit 1 =
        (mp₂.memory_types.getD i ⟨0⟩).property_flags.testBit 1) :
    allocMemoryTypeIndex mp₁ mem_req = allocMemoryTypeIndex mp₂ mem_req ∧
    ∀ allocateRes, DeviceMemory.alloc mp₁ mem_req allocateRes =
      DeviceMemory.alloc mp₂ mem_req allocateRes := by
  have hmatch : ∀ i ∈ List.range mp₁.memory_type_count,
      typeMatches mp₁ mem_req i = typeMatches mp₂ mem_req i := by
    intro i hi
    rw [typeMatches_eq_testBit, typeMatches_eq_testBit,
      hhv i (List.mem_range.mp hi)]
  have hloop : allocLoop mp₁ mem_req = allocLoop mp₂ mem_req := by
    rw [allocLoop_eq_scan, allocLoop_eq_scan, ← hcount]
    exact allocScan_congr mp₁ mp₂ mem_req _ _ hmatch
  have hidx : allocMemoryTypeIndex mp₁ mem_req = allocMemoryTypeIndex mp₂ mem_req := by
    rw [allocMemoryTypeIndex_eq, allocMemoryTypeIndex_eq, hloop]
  refine ⟨hidx, fun allocateRes => ?_⟩
  unfold DeviceMemory.alloc
  rw [hidx]

/-- Witness for C6: tables that differ in DEVICE_LOCAL (and other bits)
but agree on HOST_VISIBLE give the same selection. -/
theorem C6_witness :
    allocMemoryTypeIndex ⟨2, [⟨HOST_VISIBLE⟩, ⟨DEVICE_LOCAL⟩]⟩ ⟨8, 3⟩ =
      allocMemoryTypeIndex ⟨2, [⟨HOST_VISIBLE + DEVICE_LOCAL⟩, ⟨5⟩]⟩ ⟨8, 3⟩ :=
  (C6_selection_ignores_other_flags ⟨2, [⟨HOST_VISIBLE⟩, ⟨DEVICE_LOCAL⟩]⟩
    ⟨2, [⟨HOST_VISIBLE + DEVICE_LOCAL⟩, ⟨5⟩]⟩ ⟨8, 3⟩ (by decide) (by decide)).1

/-- Claim C7: freeing a `DeviceMemory` is device-scoped: the `device`
destroy issues exactly one `free_memory` call for this block, removing
it from the live set and touching nothing else; the `instance` destroy
issues no call and leaves every state unchanged. -/
theorem C7_destroy_device_scoped (st : DeviceState) (self : DeviceMemory) :
    DeviceMemory.destroy_device self = [DeviceCall.freeMemory self.memory] ∧
    applyTrace st (DeviceMemory.destroy_device self) = ⟨st.live.erase self.memory⟩ ∧
    DeviceMemory.destroy_instance self = [] ∧
    applyTrace st (DeviceMemory.destroy_instance self) = st :=
  ⟨rfl, rfl, rfl, rfl⟩

/-- Inside the array bound, the checked loop condition agrees with the
total one. -/
theorem typeMatchesChecked_eq (mem_props : PhysicalDeviceMemoryProperties)
    (mem_req : MemoryRequirements) (i : Nat)
    (h : i < mem_props.memory_types.length) :
    typeMatchesChecked mem_props mem_req i =
      some (typeMatches mem_props mem_req i) := by
  have hget : mem_props.memory_types.get? i =
      some (mem_props.memory_types.getD i ⟨0⟩) := by
    rw [List.get?_eq_getElem?, List.getElem?_eq_getElem h,
      List.getD_eq_getElem?_getD, List.getElem?_eq_getElem h]
    rfl
  unfold typeMatchesChecked typeMatches
  rw [hget]
  cases hb : ((mem_req.memory_type_bits &&& (1 <<< i)) != 0) with
  | false => simp
  | true => simp

/-- The checked loop succeeds and agrees with the total loop when every
visited index is inside the array. -/
theorem allocScanChecked_eq (mem_props : PhysicalDeviceMemoryProperties)
    (mem_req : MemoryRequirements) (l : List Nat) (st : Nat × Bool)
    (h : ∀ i ∈ l, i < mem_props.memory_types.length) :
    (l.foldlM (fun st i => (typeMatchesChecked mem_props mem_req i).map
      (fun b => if b then (i, true) else st)) st : Option (Nat × Bool)) =
      some (allocScan mem_props mem_req l st) := by
  induction l generalizing st with
  | nil => rfl
  | cons a l ih =>
    have ha := typeMatchesChecked_eq mem_props mem_req a (h a (List.mem_cons_self a l))
    have hstep : allocScan mem_props mem_req (a :: l) st =
        allocScan mem_props mem_req l
          (if typeMatches mem_props mem_req a then (a, true) else st) := rfl
    rw [hstep, List.foldlM_cons, ha]
    simp only [Option.map_some']
    exact ih _ (fun i hi => h i (List.mem_cons_of_mem a hi))

/-- Claim C8: every access `memory_types[i]` in the loop has
`i < memory_type_count`; when the count does not exceed the fixed array
length no access is out of bounds and the checked loop is total,
agreeing with the unchecked one. -/
theorem C8_no_out_of_bounds_access (mem_props : PhysicalDeviceMemoryProperties)
    (mem_req : MemoryRequirements)
    (h : mem_props.memory_type_count ≤ mem_props.memory_types.length) :
    allocLoopChecked mem_props mem_req = some (allocLoop mem_props mem_req) := by
  unfold allocLoopChecked
  rw [allocLoop_eq_scan]
  exact allocScanChecked_eq mem_props mem_req _ _
    (fun i hi => Nat.lt_of_lt_of_le (List.mem_range.mp hi) h)

/-- Witness for C8 with a two-entry table. -/
theorem C8_witness :
    (⟨2, [⟨2⟩, ⟨1⟩]⟩ : PhysicalDeviceMemoryProperties).memory_type_count ≤
        (⟨2, [⟨2⟩, ⟨1⟩]⟩ : PhysicalDeviceMemoryProperties).memory_types.length ∧
    allocLoopChecked ⟨2, [⟨2⟩, ⟨1⟩]⟩ ⟨8, 3⟩ = some (allocLoop ⟨2, [⟨2⟩, ⟨1⟩]⟩ ⟨8, 3⟩) :=
  ⟨by decide, C8_no_out_of_bounds_access ⟨2, [⟨2⟩, ⟨1⟩]⟩ ⟨8, 3⟩ (by decide)⟩

end Gear

namespace Gear

/-! ### Claims C9 and C10 -/

/-- Claim C9: `Buffer::write` always maps, copies and flushes exactly
the byte range `[0, size)` of the backing memory, where `size` is the
`descriptor.size` captured at `Buffer::new`: the map offset and the
flush offset are 0 and both lengths equal that creation-time size. -/
theorem C9_write_whole_creation_size (bdescriptor : BufferDescriptor)
    (createBufferRes allocateRes mapRes : Except Int Nat)
    (mem_props : PhysicalDeviceMemoryProperties) (mem_req : MemoryRequirements)
    (bindRes : Except Int Unit) (flushRes : Except Int Unit)
    (buf : Buffer) (tr calls : List DeviceCall) :
    Buffer.new bdescriptor createBufferRes mem_props mem_req allocateRes bindRes =
        .ok (buf, tr) →
      buf.size = bdescriptor.size ∧
      (Buffer.write buf mapRes flushRes = .ok calls →
        calls = [DeviceCall.mapMemory buf.memory.memory 0 bdescriptor.size,
                 DeviceCall.memCopy bdescriptor.size,
                 DeviceCall.flushMappedMemoryRanges buf.memory.memory 0
                   bdescriptor.size]) := by
  intro h
  cases createBufferRes with
  | error e => exact absurd h (by simp [Buffer.new])
  | ok b =>
    simp only [Buffer.new] at h
    cases halloc : DeviceMemory.alloc_buffer_memory b mem_props mem_req
        allocateRes bindRes with
    | error p => rw [halloc] at h; simp at h
    | ok mt =>
      rw [halloc] at h
      cases mt with
      | mk memory tr2 =>
        obtain ⟨hbuf, htr⟩ : (⟨b, memory, bdescriptor.size⟩ : Buffer) = buf ∧
            DeviceCall.createBuffer
              ⟨bdescriptor.size, bdescriptor.usage.into, SHARING_MODE_EXCLUSIVE⟩ ::
              tr2 = tr := by
          simpa using h
        subst hbuf
        refine ⟨rfl, ?_⟩
        intro hw
        cases mapRes with
        | error e => simp [Buffer.write] at hw
        | ok mp =>
          cases flushRes with
          | error e => simp [Buffer.write] at hw
          | ok u =>
            have hcalls : [DeviceCall.mapMemory memory.memory 0 bdescriptor.size,
                DeviceCall.memCopy bdescriptor.size,
                DeviceCall.flushMappedMemoryRanges memory.memory 0
                  bdescriptor.size] = calls := by
              simpa [Buffer.write] using hw
            exact hcalls.symm

/-- Witness for C9 at a concrete successful creation and write. -/
theorem C9_witness :
    Buffer.new ⟨32, .Vertex⟩ (.ok 2) ⟨1, [⟨HOST_VISIBLE⟩]⟩ ⟨32, 1⟩ (.ok 4) (.ok ()) =
        .ok (⟨2, ⟨4⟩, 32⟩,
          [DeviceCall.createBuffer ⟨32, BUFFER_USAGE_VERTEX_BUFFER, 0⟩,
           DeviceCall.allocateMemory 32 0, DeviceCall.bindBufferMemory 2 4 0]) ∧
    (⟨2, ⟨4⟩, 32⟩ : Buffer).size = 32 ∧
    (Buffer.write ⟨2, ⟨4⟩, 32⟩ (.ok 1) (.ok ()) =
        .ok [DeviceCall.mapMemory 4 0 32, DeviceCall.memCopy 32,
             DeviceCall.flushMappedMemoryRanges 4 0 32] →
      [DeviceCall.mapMemory 4 0 32, DeviceCall.memCopy 32,
       DeviceCall.flushMappedMemoryRanges 4 0 32] =
        [DeviceCall.mapMemory (⟨2, ⟨4⟩, 32⟩ : Buffer).memory.memory 0 32,
         DeviceCall.memCopy 32,
         DeviceCall.flushMappedMemoryRanges
           (⟨2, ⟨4⟩, 32⟩ : Buffer).memory.memory 0 32]) :=
  ⟨rfl,
   (C9_write_whole_creation_size ⟨32, .Vertex⟩ (.ok 2) (.ok 4) (.ok 1)
     ⟨1, [⟨HOST_VISIBLE⟩]⟩ ⟨32, 1⟩ (.ok ()) (.ok ()) ⟨2, ⟨4⟩, 32⟩
     [DeviceCall.createBuffer ⟨32, BUFFER_USAGE_VERTEX_BUFFER, 0⟩,
      DeviceCall.allocateMemory 32 0, DeviceCall.bindBufferMemory 2 4 0]
     [DeviceCall.mapMemory 4 0 32, DeviceCall.memCopy 32,
      DeviceCall.flushMappedMemoryRanges 4 0 32] rfl).1,
   (C9_write_whole_creation_size ⟨32, .Vertex⟩ (.ok 2) (.ok 4) (.ok 1)
     ⟨1, [⟨HOST_VISIBLE⟩]⟩ ⟨32, 1⟩ (.ok ()) (.ok ()) ⟨2, ⟨4⟩, 32⟩
     [DeviceCall.createBuffer ⟨32, BUFFER_USAGE_VERTEX_BUFFER, 0⟩,
      DeviceCall.allocateMemory 32 0, DeviceCall.bindBufferMemory 2 4 0]
     [DeviceCall.mapMemory 4 0 32, DeviceCall.memCopy 32,
      DeviceCall.flushMappedMemoryRanges 4 0 32] rfl).2⟩

/-- Claim C10: `Image::create` passes a fixed parameter set to the
native create call — format `R8G8B8A8_UNORM`, linear tiling, initial
layout `UNDEFINED`, color-attachment usage, exclusive sharing, 1 sample
— with only `image_type`, `extent`, `mip_levels`, `array_layers` taken
from the descriptor; and `ImageDescriptor::new` is a 2D 100x100x1
descriptor with 1 mip level and 1 array layer. (`Extent3d` is modelled
from the spec, see `Extent3d.new`.) -/
theorem C10_image_fixed_params (idescriptor : ImageDescriptor)
    (createImageRes allocateRes : Except Int Nat)
    (mem_props : PhysicalDeviceMemoryProperties) (mem_req : MemoryRequirements)
    (bindRes : Except Int Unit) (img : Image) (tr : List DeviceCall) :
    (Image.create idescriptor createImageRes mem_props mem_req allocateRes bindRes =
        .ok (img, tr) →
      tr.head? = some (DeviceCall.createImage
        { image_type := idescriptor.image_type.into
          extent := idescriptor.extent
          mip_levels := idescriptor.mip_levels
          array_layers := idescriptor.array_layers
          format := FORMAT_R8G8B8A8_UNORM
          tiling := IMAGE_TILING_LINEAR
          initial_layout := IMAGE_LAYOUT_UNDEFINED
          usage := IMAGE_USAGE_COLOR_ATTACHMENT
          sharing_mode := SHARING_MODE_EXCLUSIVE
          samples := SAMPLE_COUNT_TYPE_1 })) ∧
    ImageDescriptor.new = ⟨ImageType.e2D, ⟨100, 100, 1⟩, 1, 1⟩ := by
  refine ⟨?_, rfl⟩
  intro h
  cases createImageRes with
  | error e => exact absurd h (by simp [Image.create])
  | ok im =>
    simp only [Image.create] at h
    cases halloc : DeviceMemory.alloc_image_memory im mem_props mem_req
        allocateRes bindRes with
    | error p => rw [halloc] at h; simp at h
    | ok mt =>
      rw [halloc] at h
      cases mt with
      | mk memory tr2 =>
        obtain ⟨himg, htr⟩ : (⟨im, memory⟩ : Image) = img ∧
            DeviceCall.createImage
              { image_type := idescriptor.image_type.into
                extent := idescriptor.extent
                mip_levels := idescriptor.mip_levels
                array_layers := idescriptor.array_layers
                format := FORMAT_R8G8B8A8_UNORM
                tiling := IMAGE_TILING_LINEAR
                initial_layout := IMAGE_LAYOUT_UNDEFINED
                usage := IMAGE_USAGE_COLOR_ATTACHMENT
                sharing_mode := SHARING_MODE_EXCLUSIVE
                samples := SAMPLE_COUNT_TYPE_1 } :: tr2 = tr := by
          simpa using h
        rw [← htr]
        rfl

/-- Witness for C10 at a concrete successful creation. -/
theorem C10_witness :
    Image.create ImageDescriptor.new (.ok 3) ⟨1, [⟨HOST_VISIBLE⟩]⟩ ⟨16, 1⟩
        (.ok 5) (.ok ()) =
      .ok (⟨3, ⟨5⟩⟩,
        [DeviceCall.createImage ⟨1, ⟨100, 100, 1⟩, 1, 1, FORMAT_R8G8B8A8_UNORM,
           IMAGE_TILING_LINEAR, IMAGE_LAYOUT_UNDEFINED,
           IMAGE_USAGE_COLOR_ATTACHMENT, SHARING_MODE_EXCLUSIVE,
           SAMPLE_COUNT_TYPE_1⟩,
         DeviceCall.allocateMemory 16 0, DeviceCall.bindImageMemory 3 5 0]) ∧
    [DeviceCall.createImage ⟨1, ⟨100, 100, 1⟩, 1, 1, FORMAT_R8G8B8A8_UNORM,
       IMAGE_TILING_LINEAR, IMAGE_LAYOUT_UNDEFINED,
       IMAGE_USAGE_COLOR_ATTACHMENT, SHARING_MODE_EXCLUSIVE,
       SAMPLE_COUNT_TYPE_1⟩,
     DeviceCall.allocateMemory 16 0, DeviceCall.bindImageMemory 3 5 0].head? =
      some (DeviceCall.createImage
        { image_type := ImageDescriptor.new.image_type.into
          extent := ImageDescriptor.new.extent
          mip_levels := ImageDescriptor.new.mip_levels
          array_layers := ImageDescriptor.new.array_layers
          format := FORMAT_R8G8B8A8_UNORM
          tiling := IMAGE_TILING_LINEAR
          initial_layout := IMAGE_LAYOUT_UNDEFINED
          usage := IMAGE_USAGE_COLOR_ATTACHMENT
          sharing_mode := SHARING_MODE_EXCLUSIVE
          samples := SAMPLE_COUNT_TYPE_1 }) :=
  ⟨rfl,
   (C10_image_fixed_params ImageDescriptor.new (.ok 3) (.ok 5)
     ⟨1, [⟨HOST_VISIBLE⟩]⟩ ⟨16, 1⟩ (.ok ()) ⟨3, ⟨5⟩⟩
     [DeviceCall.createImage ⟨1, ⟨100, 100, 1⟩, 1, 1, FORMAT_R8G8B8A8_UNORM,
        IMAGE_TILING_LINEAR, IMAGE_LAYOUT_UNDEFINED,
        IMAGE_USAGE_COLOR_ATTACHMENT, SHARING_MODE_EXCLUSIVE,
        SAMPLE_COUNT_TYPE_1⟩,
      DeviceCall.allocateMemory 16 0, DeviceCall.bindImageMemory 3 5 0]).1 rfl⟩

end Gear
